import Mathlib

/-!
Verification development for the MEDICHAT symptom-extraction and
condition-ranking engine.

The definitions below are a shallow embedding of the Python sources
`chatbot.py` (class `DoctorChatbot`) and `medical_api.py`
(class `MedicalResourceAPI`):

* text is modelled as `String` (lists of characters); the Python substring
  test `needle in hay` is modelled by `containsSub`, `str.lower()` by
  `lowerStr`, `str.split()` by `pyWords`, `str.title()` by `titleStr`,
  and the word-boundary regex `\b(kw1|kw2|...)\b` by `matchesAny`;
* Python dicts that are only keyed and iterated are modelled as
  insertion-ordered association lists (`List (String × _)`), matching
  the dict iteration order guaranteed by CPython;
* Python sets held in the conversation state are modelled as
  insertion-ordered duplicate-free lists (`setUpdate`), a deterministic
  refinement of the unspecified set iteration order of CPython;
* `random.choice` is modelled by an explicit choice parameter `rng`
  (`pick`), and the external network calls of `MedicalResourceAPI` by
  explicit `Except Unit _` parameters (`Except.error` = the call raised);
* the float expression `int((match_count / max_score) * 100)` is modelled
  as natural floor division `match_count * 100 / max_score`, and the
  ratio test `match_count / len(parts) >= 0.5` as
  `len(parts) ≤ 2 * match_count`.
-/

namespace Medichat

/-! ## String primitives -/

/-- Python `str.lower()`: lowercase every character. -/
def lowerStr (s : String) : String := ⟨s.data.map Char.toLower⟩

/-- Contiguous-sublist test on character lists (Python `needle in hay`). -/
def infixChars : List Char → List Char → Bool
  | needle, [] => needle.isEmpty
  | needle, c :: rest => needle.isPrefixOf (c :: rest) || infixChars needle rest

/-- Python substring containment `needle in hay`. -/
def containsSub (hay needle : String) : Bool := infixChars needle.data hay.data

/-- Helper for `pyWords`: split a character list on spaces, dropping empties.
The accumulator holds the current word reversed. -/
def splitWordsAux : List Char → List Char → List String
  | [], acc => if acc.isEmpty then [] else [⟨acc.reverse⟩]
  | c :: rest, acc =>
    if c = ' ' then
      (if acc.isEmpty then [] else [⟨acc.reverse⟩]) ++ splitWordsAux rest []
    else
      splitWordsAux rest (c :: acc)

/-- Python `str.split()` for the space-separated phrases used in the
knowledge base: split on runs of spaces, dropping empty pieces. -/
def pyWords (s : String) : List String := splitWordsAux s.data []

/-- Python `sep.join(pieces)`. -/
def joinWith (sep : String) : List String → String
  | [] => ""
  | [x] => x
  | x :: y :: rest => x ++ sep ++ joinWith sep (y :: rest)

/-- Helper for `titleStr`: the flag records whether the previous character
was alphabetic. -/
def titleChars : Bool → List Char → List Char
  | _, [] => []
  | prevAlpha, c :: rest =>
    (if c.isAlpha then (if prevAlpha then c.toLower else c.toUpper) else c)
      :: titleChars c.isAlpha rest

/-- Python `str.title()` on the alphabetic disease names it is applied to. -/
def titleStr (s : String) : String := ⟨titleChars false s.data⟩

/-- Regex word character (`\w`) for the ASCII inputs involved. -/
def isWordChar (c : Char) : Bool := c.isAlphanum || c = '_'

/-- A word boundary (`\b`) holds against a neighbouring character that is
absent or not a word character (all keywords start and end with word
characters, so this is exact for the regexes in `process_input`). -/
def boundaryOk : Option Char → Bool
  | none => true
  | some c => !isWordChar c

/-- Test that `phrase` occurs at the head of `text` with a word boundary after it. -/
def wordAtHere (text phrase : List Char) : Bool :=
  phrase.isPrefixOf text && boundaryOk (text.drop phrase.length).head?

/-- Scan `text` for an occurrence of `phrase` delimited by word boundaries;
`pre` is the character immediately before the current position. -/
def wordSearchAux (phrase : List Char) : Option Char → List Char → Bool
  | pre, [] => boundaryOk pre && wordAtHere [] phrase
  | pre, c :: rest =>
    (boundaryOk pre && wordAtHere (c :: rest) phrase) || wordSearchAux phrase (some c) rest

/-- The regex search for a phrase delimited by word boundaries, viewed as a
Boolean. -/
def containsWord (text phrase : String) : Bool := wordSearchAux phrase.data none text.data

/-- The keyword regex checks of `process_input` viewed as a Boolean: some
keyword occurs with word boundaries in the lowercased input. -/
def matchesAny (userInput : String) (keywords : List String) : Bool :=
  keywords.any (fun kw => containsWord (lowerStr userInput) kw)

/-! ## Knowledge base (`medical_data`) -/

/-- One entry of the `diseases` dictionary: every key is optional. -/
structure DiseaseInfo where
  treatment : Option String
  diagnosis : Option String
  symptoms : Option (List String)
deriving DecidableEq

/-- The medical knowledge base: the four top-level dictionaries produced by
`load_medical_data` / `_get_basic_medical_data`, as insertion-ordered
association lists. -/
structure MedicalData where
  symptoms : List (String × List String)
  conditions : List (String × List String)
  symptomQuestions : List (String × List String)
  diseases : List (String × DiseaseInfo)
deriving DecidableEq

/-- First-match association-list lookup (Python dict `d[k]` / `k in d`). -/
def lookupAssoc {α : Type} : List (String × α) → String → Option α
  | [], _ => none
  | (k, v) :: rest, key => if k = key then some v else lookupAssoc rest key

/-- The fallback dataset returned by `DoctorChatbot._get_basic_medical_data`
(the only knowledge base present in the sources). -/
def basicMedicalData : MedicalData where
  symptoms :=
    [ ("high fever", ["MALARIA", "TYPHOID FEVER", "YELLOW FEVER", "DENGUE FEVER"])
    , ("fever", ["MALARIA", "TYPHOID FEVER", "CHOLERA", "HEPATITIS B", "YELLOW FEVER"])
    , ("chills", ["MALARIA", "TYPHOID FEVER", "YELLOW FEVER"])
    , ("headache", ["MALARIA", "TYPHOID FEVER", "MENINGITIS"])
    , ("sweating", ["MALARIA", "YELLOW FEVER"])
    , ("nausea", ["MALARIA", "TYPHOID FEVER", "CHOLERA", "HEPATITIS B"])
    , ("vomiting", ["MALARIA", "TYPHOID FEVER", "CHOLERA", "YELLOW FEVER"])
    , ("fatigue", ["MALARIA", "TYPHOID FEVER", "HEPATITIS B", "HIV/AIDS"])
    , ("abdominal pain", ["TYPHOID FEVER", "CHOLERA", "HEPATITIS B"])
    , ("diarrhea", ["TYPHOID FEVER", "CHOLERA", "HIV/AIDS"])
    , ("rash", ["TYPHOID FEVER", "MEASLES", "HIV/AIDS"])
    , ("jaundice", ["HEPATITIS B", "YELLOW FEVER", "MALARIA"])
    , ("muscle pain", ["MALARIA", "DENGUE FEVER", "LASSA FEVER"])
    , ("stiff neck", ["MENINGITIS"])
    , ("cough", ["TUBERCULOSIS", "PNEUMONIA", "INFLUENZA"])
    , ("weight loss", ["TUBERCULOSIS", "HIV/AIDS"]) ]
  conditions :=
    [ ("MALARIA", ["Antimalarial drugs (Artemisinin-based Combination Therapy - ACT)", "supportive care for fever and dehydration", "seek immediate medical attention"])
    , ("TYPHOID FEVER", ["Antibiotics (Ciprofloxacin, Azithromycin)", "hydration therapy", "seek medical care immediately"])
    , ("CHOLERA", ["Oral Rehydration Therapy (ORT)", "intravenous fluids", "antibiotics (Doxycycline, Azithromycin)"])
    , ("TUBERCULOSIS", ["6-month course of antibiotics (Rifampin, Isoniazid, Ethambutol, Pyrazinamide)", "medical monitoring"])
    , ("HEPATITIS B", ["Antiviral medications (Tenofovir, Entecavir)", "liver monitoring", "supportive therapy"])
    , ("YELLOW FEVER", ["Supportive care (fluids, pain relievers, rest)", "seek immediate medical attention", "preventable by vaccination"])
    , ("MENINGITIS", ["Antibiotics for bacterial meningitis", "antiviral treatment for viral meningitis", "corticosteroids to reduce inflammation"])
    , ("MEASLES", ["Supportive care (fluids, fever reducers, vitamin A supplements)", "preventable by vaccination"])
    , ("HIV/AIDS", ["Antiretroviral therapy (ART) to manage the virus and prevent complications", "regular medical follow-up"]) ]
  symptomQuestions :=
    [ ("high fever", ["Does your fever come and go in cycles?", "Do you have chills before the fever starts?", "Have you been in a malaria-endemic area recently?"])
    , ("fever", ["How long have you had the fever?", "Is it constant or does it come and go?", "Have you traveled recently to tropical areas?"])
    , ("jaundice", ["Have you noticed yellowing of your eyes or skin?", "Have you had any changes in urine color?", "Do you have any pain in your abdomen?"])
    , ("rash", ["Where is the rash located on your body?", "Is the rash itchy or painful?", "Did the rash appear after taking any medication?"])
    , ("diarrhea", ["How severe is the diarrhea?", "Is there any blood in your stool?", "Have you been drinking clean water?"])
    , ("cough", ["Is it a productive cough with sputum?", "How long have you been coughing?", "Have you coughed up any blood?"])
    , ("abdominal pain", ["Where exactly is the pain located?", "Is the pain constant or does it come and go?", "Does it get worse after eating?"])
    , ("headache", ["Is the headache severe?", "Does it get worse when you move?", "Do you have any sensitivity to light?"])
    , ("stiff neck", ["Can you touch your chin to your chest?", "Do you have a severe headache with the stiff neck?", "Do you have fever along with the stiff neck?"]) ]
  diseases := []

/-! ## Symptom extraction (`DoctorChatbot.extract_symptoms`) -/

/-- Embeds `DoctorChatbot.extract_symptoms`: scan the knowledge-base symptom keys
in order; a key is kept on an exact lowercased-substring match, otherwise a
multi-word key is kept when at least half of its words occur as substrings
of the lowercased input.  (The tokenized/lemmatized word list computed at
the top of the Python function is dead code and is not modelled.) -/
def extractSymptoms (symptomKeys : List String) (userInput : String) : List String :=
  match symptomKeys with
  | [] => []
  | symptom :: rest =>
    if containsSub (lowerStr userInput) symptom then
      symptom :: extractSymptoms rest userInput
    else
      if 1 < (pyWords symptom).length then
        if (pyWords symptom).length ≤
            2 * ((pyWords symptom).filter
                  (fun part => containsSub (lowerStr userInput) part)).length then
          symptom :: extractSymptoms rest userInput
        else
          extractSymptoms rest userInput
      else
        extractSymptoms rest userInput

/-! ## Condition scoring (`DoctorChatbot.get_diagnosis`, lines 196-230) -/

/-- Python `potential_conditions[condition] = potential_conditions.get(condition, 0) + 1`
on an insertion-ordered counter dictionary: bump the first matching key in
place, or append a fresh key at the end. -/
def incrCount : List (String × Nat) → String → List (String × Nat)
  | [], c => [(c, 1)]
  | (k, v) :: rest, c =>
    if k = c then (k, v + 1) :: rest else (k, v) :: incrCount rest c

/-- The contribution of one symptom to the tally of `get_diagnosis`: look up its
condition list in the knowledge base (a missing symptom contributes
nothing) and bump the counter of every listed condition. -/
def tallyStep (md : MedicalData) (acc : List (String × Nat)) (symptom : String) :
    List (String × Nat) :=
  match lookupAssoc md.symptoms symptom with
  | some conds => conds.foldl incrCount acc
  | none => acc

/-- The tally loop of `get_diagnosis` (lines 196-202), building the
insertion-ordered counter dictionary `potential_conditions`. -/
def tallyConditions (md : MedicalData) (confirmed : List String) : List (String × Nat) :=
  confirmed.foldl (tallyStep md) []

/-- One step of a stable descending insertion sort on counts: walk past the
entries whose count is at least that of `x` (so earlier entries win ties) and
insert before the first strictly smaller one. -/
def insertDesc (x : String × Nat) : List (String × Nat) → List (String × Nat)
  | [] => [x]
  | y :: ys => if x.2 ≤ y.2 then y :: insertDesc x ys else x :: y :: ys

/-- Embeds the Python call of sorted with the count key and reverse order;
that sort is stable, which this left-to-right insertion sort reproduces. -/
def sortDescStable (l : List (String × Nat)) : List (String × Nat) :=
  l.foldl (fun acc x => insertDesc x acc) []

/-- The variable `sorted_conditions` in `get_diagnosis`. -/
def sortedConditions (md : MedicalData) (confirmed : List String) : List (String × Nat) :=
  sortDescStable (tallyConditions md confirmed)

/-- The slice `top_conditions = sorted_conditions[:2]`. -/
def topConditions (md : MedicalData) (confirmed : List String) : List (String × Nat) :=
  (sortedConditions md confirmed).take 2

/-- The confidence expression of line 222 (a guarded float division),
with the float truncation modelled as natural floor division. -/
def confidenceVal (matchCount maxScore : Nat) : Nat :=
  if 0 < maxScore then matchCount * 100 / maxScore else 0

/-- The confidence label thresholds of `get_diagnosis` (lines 225-230). -/
def confidenceLevel (confidence : Nat) : String :=
  if 75 ≤ confidence then "High Sickness"
  else if 50 ≤ confidence then "Moderate Sickness"
  else "Possible Sickness"

/-- The displayed conditions of a diagnosis: the top 2 ranked conditions,
each with its match count and the confidence label derived from
`match_count` against `max_score = len(confirmed_symptoms)`. -/
def labeledConditions (md : MedicalData) (confirmed : List String) :
    List (String × Nat × String) :=
  (topConditions md confirmed).map
    (fun e => (e.1, e.2, confidenceLevel (confidenceVal e.2 confirmed.length)))

/-- The per-condition treatment text of the diagnosis loop (lines 234-245):
prefer the `diseases` record, fall back to the `conditions` self-care list,
else just the newline. -/
def treatmentSection (md : MedicalData) (condition : String) : String :=
  match lookupAssoc md.diseases condition with
  | some info =>
    match info.treatment with
    | some t => "  Treatment: " ++ t ++ "\n\n"
    | none => "\n"
  | none =>
    match lookupAssoc md.conditions condition with
    | some steps => "  Possible self-care steps include: " ++ joinWith ", " steps ++ "\n\n"
    | none => "\n"

/-- Render the displayed-condition lines of `get_diagnosis`. -/
def renderConditions (md : MedicalData) (labeled : List (String × Nat × String)) : String :=
  labeled.foldl
    (fun acc e => acc ++ "• **" ++ e.1 ++ "** - " ++ e.2.2 ++ "\n" ++ treatmentSection md e.1)
    ""

/-- One condition record returned by
`MedicalResourceAPI.search_medical_condition`; optional fields model the
truthiness checks `condition_info.get(...)`. -/
structure ExternalCondition where
  name : String
  description : Option String
  source : Option String
deriving DecidableEq

/-- The dictionary returned by `MedicalResourceAPI.search_medical_condition`. -/
structure ExternalData where
  conditions : List ExternalCondition
  disclaimer : Option String
deriving DecidableEq

/-- The external-condition lines of the enrichment section (lines 259-265). -/
def externalConditionLines (conds : List ExternalCondition) : String :=
  conds.foldl
    (fun acc ci =>
      acc ++ "• **" ++ ci.name ++ "** - Possible Sickness\n"
        ++ (match ci.description with | some d => "  " ++ d ++ "\n" | none => "")
        ++ (match ci.source with | some s => "  Source: " ++ s ++ "\n\n" | none => ""))
    ""

/-- The `try`-guarded enrichment section of `get_diagnosis` (lines 247-272):
an exception from the gateway (`Except.error`) is swallowed and contributes
nothing; on success the section appears only when fewer than 2 local
conditions were ranked and the gateway returned a non-empty condition list. -/
def enrichmentSection (md : MedicalData) (confirmed : List String)
    (ext : Except Unit ExternalData) : String :=
  match ext with
  | Except.error _ => ""
  | Except.ok data =>
    if (topConditions md confirmed).length < 2 ∧ data.conditions ≠ [] then
      "\nAdditional information from medical references:\n\n"
        ++ externalConditionLines (data.conditions.take (2 - (topConditions md confirmed).length))
        ++ (match data.disclaimer with | some d => "\n" ++ d ++ "\n" | none => "")
    else ""

/-- Embeds `DoctorChatbot.disclaimer`, appended verbatim to diagnosis-bearing
responses. -/
def medicalDisclaimer : String :=
  "IMPORTANT: This is only a preliminary assessment based on the symptoms you\x27ve described. It is not a medical diagnosis. Please consult with a healthcare professional for proper diagnosis and treatment."

/-- Early return of `get_diagnosis` when no symptoms are confirmed. -/
def insufficientMsg : String :=
  "I need more information about your symptoms to provide a helpful assessment."

/-- Early return of `get_diagnosis` when no condition matched. -/
def noMatchMsg : String :=
  "Based on the symptoms you\x27ve described, I don\x27t have enough information to suggest a potential cause. Please consult with a healthcare professional."

/-- Header line of the diagnosis response. -/
def diagnosisHeader : String :=
  "Based on the symptoms you\x27ve described, here are the most likely conditions:\n\n"

/-- Embeds `DoctorChatbot.get_diagnosis`: the full response text, parameterized by
the outcome of the external gateway call. -/
def getDiagnosisStr (md : MedicalData) (confirmed : List String)
    (ext : Except Unit ExternalData) : String :=
  if confirmed = [] then insufficientMsg
  else if sortedConditions md confirmed = [] then noMatchMsg
  else
    diagnosisHeader
      ++ renderConditions md (labeledConditions md confirmed)
      ++ enrichmentSection md confirmed ext
      ++ "\n" ++ medicalDisclaimer

/-! ### Division-checked variant of the diagnosis (for the safety claim)

`getDiagnosisChecked` is the same computation with the Python division modelled as
a fallible operation (`pyDiv`), so that a `ZeroDivisionError` would surface
as `none`. -/

/-- Python division with an explicit `ZeroDivisionError` branch. -/
def pyDiv (a b : Nat) : Option Nat := if b = 0 then none else some (a / b)

/-- The confidence computation with checked division: the guard
`if max_score > 0 ... else 0` is taken from line 222 of the source. -/
def confidenceValChecked (matchCount maxScore : Nat) : Option Nat :=
  if 0 < maxScore then pyDiv (matchCount * 100) maxScore else some 0

/-- Evaluate a fallible function across a list, dying at the first failure
(the way an uncaught exception would abort the Python display loop). -/
def mapOption {α β : Type} (f : α → Option β) : List α → Option (List β)
  | [] => some []
  | a :: l =>
    match f a, mapOption f l with
    | some b, some bs => some (b :: bs)
    | _, _ => none

/-- The displayed conditions computed with checked division. -/
def labeledConditionsChecked (md : MedicalData) (confirmed : List String) :
    Option (List (String × Nat × String)) :=
  mapOption
    (fun e => (confidenceValChecked e.2 confirmed.length).map
      (fun conf => (e.1, e.2, confidenceLevel conf)))
    (topConditions md confirmed)

/-- The function `get_diagnosis` with checked division: `none` would mean an uncaught
`ZeroDivisionError`. -/
def getDiagnosisChecked (md : MedicalData) (confirmed : List String)
    (ext : Except Unit ExternalData) : Option String :=
  if confirmed = [] then some insufficientMsg
  else if sortedConditions md confirmed = [] then some noMatchMsg
  else
    (labeledConditionsChecked md confirmed).map
      (fun labeled =>
        diagnosisHeader
          ++ renderConditions md labeled
          ++ enrichmentSection md confirmed ext
          ++ "\n" ++ medicalDisclaimer)

/-! ## Treatment details (`DoctorChatbot.get_treatment_info`) -/

/-- The dictionary returned by
`MedicalResourceAPI.get_treatment_recommendations`; optional fields model
the truthiness checks `treatment_info.get(...)`. -/
structure TreatmentData where
  treatment : Option String
  source : Option String
  disclaimer : Option String
deriving DecidableEq

/-- Embeds `DoctorChatbot.get_treatment_info`: detailed text for one condition,
parameterized by the outcome of the external gateway call; always ends with
the fixed disclaimer. -/
def getTreatmentInfo (md : MedicalData) (condition : String)
    (extT : Except Unit TreatmentData) : String :=
  "Here\x27s more information about " ++ condition ++ ":\n\n"
    ++ (match lookupAssoc md.diseases condition with
        | some info =>
          (match info.treatment with
           | some t => "Treatment: " ++ t ++ "\n\n" | none => "")
          ++ (match info.diagnosis with
              | some d => "Diagnosis: " ++ d ++ "\n\n" | none => "")
          ++ (match info.symptoms with
              | some sl => "Common symptoms: " ++ joinWith ", " sl ++ "\n\n" | none => "")
        | none =>
          match lookupAssoc md.conditions condition with
          | some steps => "Recommended self-care steps include: " ++ joinWith ", " steps ++ "\n\n"
          | none => "")
    ++ (match extT with
        | Except.error _ => ""
        | Except.ok ti =>
          (match ti.treatment with
           | some t => "Additional treatment information:\n" ++ t ++ "\n\n" | none => "")
          ++ (match ti.source with | some s => "Source: " ++ s ++ "\n" | none => "")
          ++ (match ti.disclaimer with | some d => "\n" ++ d ++ "\n" | none => ""))
    ++ "\n" ++ medicalDisclaimer

/-! ## Conversation state machine (`DoctorChatbot.process_input`) -/

/-- The conversation stage strings used by the source. -/
inductive Stage
  | greeting
  | collectingSymptoms
  | diagnosis
deriving DecidableEq

/-- The per-session `conversation_state` dictionary (the `current_question`
slot is initialized to `None` and never used, and is not modelled).  The
two Python sets are modelled as insertion-ordered duplicate-free lists. -/
structure ConvState where
  collectedSymptoms : List String
  confirmedSymptoms : List String
  stage : Stage
deriving DecidableEq

/-- The state built by `__init__` and by `reset_conversation`. -/
def initialState : ConvState :=
  { collectedSymptoms := [], confirmedSymptoms := [], stage := Stage.greeting }

/-- Python `set.update(new)` on the insertion-ordered list model: append
each genuinely new element at the end. -/
def setUpdate (s : List String) : List String → List String
  | [] => s
  | x :: xs => setUpdate (if x ∈ s then s else s ++ [x]) xs

/-- Embeds `DoctorChatbot.greetings`. -/
def greetings : List String :=
  [ "Hello! I\x27m Dr. Bot, a virtual assistant that can help identify potential health issues based on your symptoms. What symptoms are you experiencing?"
  , "Hi there! I\x27m Dr. Bot, your virtual medical assistant. Please describe any symptoms you\x27re experiencing so I can try to help."
  , "Welcome! I\x27m Dr. Bot, here to assist with preliminary medical advice. What symptoms are you having today?" ]

/-- Embeds `DoctorChatbot.follow_up_questions`. -/
def followUpQuestions : List String :=
  [ "How long have you been experiencing these symptoms?"
  , "Are you experiencing any pain? If so, can you rate it from 1-10?"
  , "Have you taken any medications for these symptoms?"
  , "Do you have any known allergies or medical conditions?"
  , "Have you had any fever or chills?"
  , "Has anyone around you experienced similar symptoms?"
  , "Have you traveled to any tropical or subtropical regions recently?"
  , "Have you noticed any pattern to your fever, like coming and going every few days?"
  , "Have you been exposed to mosquitoes or other insects recently?"
  , "Is anyone else in your household or community experiencing similar symptoms?"
  , "Have you had any vaccinations for tropical diseases like yellow fever or typhoid?"
  , "Do you have access to clean drinking water?"
  , "Have you been near any stagnant water sources recently?" ]

/-- Python `random.choice` determinized by an explicit choice parameter. -/
def pick (l : List String) (rng : Nat) : String := l.getD (rng % l.length) ""

/-- Embeds `DoctorChatbot.get_follow_up_question`: the first collected symptom with
dedicated questions supplies them, otherwise the general pool is used. -/
def getFollowUpQuestion (md : MedicalData) (collected : List String) (rng : Nat) : String :=
  match collected.find? (fun s => (lookupAssoc md.symptomQuestions s).isSome) with
  | some s => pick ((lookupAssoc md.symptomQuestions s).getD []) rng
  | none => pick followUpQuestions rng

/-- The keyword vocabularies of the `re.search` calls in `process_input`. -/
def goodbyeKeywords : List String := ["goodbye", "bye", "thank you", "thanks"]

/-- Keywords of the restart regex (line 291). -/
def restartKeywords : List String := ["restart", "start over", "new conversation"]

/-- Keywords of the diagnosis-request regex (line 316). -/
def diagnosisKeywords : List String := ["diagnose", "diagnosis", "what do i have", "what is it"]

/-- Keywords of the more-information regex (line 339). -/
def moreInfoKeywords : List String :=
  ["more info", "more information", "tell me more", "additional info", "explain", "clarify"]

/-- The `specific_diseases` list checked in the more-information branch. -/
def specificDiseases : List String :=
  [ "malaria", "typhoid", "dengue", "cholera", "tuberculosis", "tb"
  , "covid", "flu", "influenza", "pneumonia", "bronchitis", "asthma"
  , "diabetes", "hypertension", "cancer", "hiv", "aids" ]

/-- The response of one `process_input` turn, one constructor per `return`
statement of the source, carrying the data interpolated into the f-string. -/
inductive Response
  | greetingMsg (text : String)
  | closingMsg
  | restartMsg (text : String)
  | symptomsDiagnosis (symptoms : List String) (count : Nat) (diag : String)
  | symptomsAck (symptoms : List String) (remaining : Nat) (followUp : String)
  | diagnosisDirect (diag : String)
  | needMoreSymptoms (remaining : Nat)
  | unrecognizedSymptoms
  | addedSymptomsDiagnosis (symptoms : List String) (diag : String)
  | conditionDetail (info : String)
  | referToProfessional
  | assessmentProvided
  | fallbackClarify
deriving DecidableEq

/-- The more-information branch of the diagnosis stage (lines 339-365):
return details for the first tallied condition whose lowercased name occurs
in the input, else for the first matching entry of `specific_diseases`
(title-cased), else a generic refer-to-professional message.  The
conversation state is not changed by this branch. -/
def moreInfoResponse (md : MedicalData) (st : ConvState) (userInput : String)
    (extT : Except Unit TreatmentData) : Response :=
  match ((tallyConditions md st.confirmedSymptoms).map Prod.fst).find?
          (fun c => containsSub (lowerStr userInput) (lowerStr c)) with
  | some c => Response.conditionDetail (getTreatmentInfo md c extT)
  | none =>
    match specificDiseases.find? (fun d => containsSub (lowerStr userInput) d) with
    | some d => Response.conditionDetail (getTreatmentInfo md (titleStr d) extT)
    | none => Response.referToProfessional

/-- Embeds `DoctorChatbot.process_input`: one dialogue turn, returning the updated
conversation state paired with the response.  `rng` determinizes the
`random.choice` calls; `ext`/`extT` are the external gateway outcomes used
if a diagnosis or treatment lookup happens during the turn. -/
def processInput (md : MedicalData) (st : ConvState) (userInput : String) (rng : Nat)
    (ext : Except Unit ExternalData) (extT : Except Unit TreatmentData) :
    ConvState × Response :=
  if st.stage = Stage.greeting then
    ({ st with stage := Stage.collectingSymptoms }, Response.greetingMsg (pick greetings rng))
  else if matchesAny userInput goodbyeKeywords then
    (initialState, Response.closingMsg)
  else if matchesAny userInput restartKeywords then
    (initialState, Response.restartMsg ("Let\x27s start over. " ++ pick greetings rng))
  else if st.stage = Stage.collectingSymptoms then
    let extracted := extractSymptoms (md.symptoms.map Prod.fst) userInput
    if extracted ≠ [] then
      let newCollected := setUpdate st.collectedSymptoms extracted
      let newConfirmed := setUpdate st.confirmedSymptoms extracted
      if 3 ≤ newConfirmed.length then
        ({ collectedSymptoms := newCollected, confirmedSymptoms := newConfirmed,
           stage := Stage.diagnosis },
         Response.symptomsDiagnosis extracted newConfirmed.length
           (getDiagnosisStr md newConfirmed ext))
      else
        ({ collectedSymptoms := newCollected, confirmedSymptoms := newConfirmed,
           stage := st.stage },
         Response.symptomsAck extracted (3 - newConfirmed.length)
           (getFollowUpQuestion md newCollected rng))
    else if matchesAny userInput diagnosisKeywords then
      if 3 ≤ st.confirmedSymptoms.length then
        ({ st with stage := Stage.diagnosis },
         Response.diagnosisDirect (getDiagnosisStr md st.confirmedSymptoms ext))
      else
        (st, Response.needMoreSymptoms (3 - st.confirmedSymptoms.length))
    else
      (st, Response.unrecognizedSymptoms)
  else if st.stage = Stage.diagnosis then
    let newSymptoms := extractSymptoms (md.symptoms.map Prod.fst) userInput
    if newSymptoms ≠ [] then
      let newConfirmed := setUpdate st.confirmedSymptoms newSymptoms
      ({ st with confirmedSymptoms := newConfirmed },
       Response.addedSymptomsDiagnosis newSymptoms (getDiagnosisStr md newConfirmed ext))
    else if matchesAny userInput moreInfoKeywords then
      (st, moreInfoResponse md st userInput extT)
    else
      (st, Response.assessmentProvided)
  else
    (st, Response.fallbackClarify)

/-- The session states reachable from a fresh `DoctorChatbot` by any
sequence of `process_input` turns. -/
inductive Reachable (md : MedicalData) : ConvState → Prop
  | init : Reachable md initialState
  | step (st : ConvState) (userInput : String) (rng : Nat)
      (ext : Except Unit ExternalData) (extT : Except Unit TreatmentData) :
      Reachable md st → Reachable md (processInput md st userInput rng ext extT).1

/-! ## Derived notions used by the verification -/

/-- The cross-turn session invariant: in the diagnosis stage at least three
symptoms are confirmed, and in the greeting stage both symptom sets are
empty. -/
def StateInv (st : ConvState) : Prop :=
  (st.stage = Stage.diagnosis → 3 ≤ st.confirmedSymptoms.length) ∧
  (st.stage = Stage.greeting → st.confirmedSymptoms = [] ∧ st.collectedSymptoms = [])

/-- The responses that embed the output of `get_diagnosis` (a ranked
assessment). -/
def isDiagnosisBearing : Response → Bool
  | Response.symptomsDiagnosis _ _ _ => true
  | Response.diagnosisDirect _ => true
  | Response.addedSymptomsDiagnosis _ _ => true
  | _ => false

/-- The counter value recorded for a condition (0 when absent). -/
def valAt (d : List (String × Nat)) (c : String) : Nat := (lookupAssoc d c).getD 0

/-- The number of occurrences of condition `c` across the knowledge-base
condition lists of the confirmed symptoms: the match count the tally loop
of `get_diagnosis` computes. -/
def countOccs (md : MedicalData) (confirmed : List String) (c : String) : Nat :=
  (confirmed.map (fun s => ((lookupAssoc md.symptoms s).getD []).count c)).sum

/-- The keys of a counter dictionary, in insertion order. -/
def keysOf (d : List (String × Nat)) : List String := d.map Prod.fst

/-- A string ends with the given final segment. -/
def strEndsWith (s tail : String) : Prop := ∃ p, s = p ++ tail

/-- Modelled from the spec (§4.3/§5): the diagnosis response with the
enrichment section omitted — the purely local ranked assessment the
specification says a gateway failure must fall back to. -/
def getDiagnosisNoEnrichment (md : MedicalData) (confirmed : List String) : String :=
  if confirmed = [] then insufficientMsg
  else if sortedConditions md confirmed = [] then noMatchMsg
  else
    diagnosisHeader
      ++ renderConditions md (labeledConditions md confirmed)
      ++ "\n" ++ medicalDisclaimer

/-- A ten-element confirmed-symptom list over the fallback knowledge base
in which MALARIA matches exactly 7 of the 10 symptoms (70 percent). -/
def cxSeventy : List String :=
  [ "high fever", "fever", "chills", "headache", "sweating", "nausea", "vomiting"
  , "cough", "weight loss", "stiff neck" ]

/-- A five-element confirmed-symptom list over the fallback knowledge base
in which TUBERCULOSIS and HIV/AIDS each match exactly 2 of the 5 symptoms
(40 percent). -/
def cxForty : List String :=
  ["cough", "weight loss", "stiff neck", "diarrhea", "jaundice"]

/-- The worked scorer example of the spec (§8): fever→[A,B], cough→[A],
headache→[A,C]. -/
def exampleKB : MedicalData where
  symptoms := [("fever", ["A", "B"]), ("cough", ["A"]), ("headache", ["A", "C"])]
  conditions := [("A", []), ("B", []), ("C", [])]
  symptomQuestions := []
  diseases := []

/-- The state after one greeting turn from a fresh session: the stage has
moved to collecting symptoms with both symptom sets still empty. -/
def c3State1 : ConvState :=
  (processInput basicMedicalData initialState "hi" 0 (Except.error ()) (Except.error ())).1

/-! ## Helper lemmas -/

theorem setUpdate_length_le (new : List String) (s : List String) :
    s.length ≤ (setUpdate s new).length := by
  induction new generalizing s with
  | nil => exact Nat.le_refl _
  | cons x xs ih =>
    show s.length ≤ (setUpdate (if x ∈ s then s else s ++ [x]) xs).length
    refine Nat.le_trans ?_ (ih _)
    split
    · exact Nat.le_refl _
    · simp

theorem stateInv_init : StateInv initialState :=
  ⟨fun h => by simp [initialState] at h, fun _ => ⟨rfl, rfl⟩⟩

theorem stateInv_step (md : MedicalData) (st : ConvState) (userInput : String) (rng : Nat)
    (ext : Except Unit ExternalData) (extT : Except Unit TreatmentData)
    (hinv : StateInv st) : StateInv (processInput md st userInput rng ext extT).1 := by
  obtain ⟨hdiag, hgreet⟩ := hinv
  simp only [processInput]
  by_cases h1 : st.stage = Stage.greeting
  · rw [if_pos h1]
    exact ⟨fun h => by simp at h, fun h => by simp at h⟩
  rw [if_neg h1]
  by_cases h2 : matchesAny userInput goodbyeKeywords = true
  · rw [if_pos h2]; exact stateInv_init
  rw [if_neg h2]
  by_cases h3 : matchesAny userInput restartKeywords = true
  · rw [if_pos h3]; exact stateInv_init
  rw [if_neg h3]
  by_cases h4 : st.stage = Stage.collectingSymptoms
  · rw [if_pos h4]
    by_cases h5 : extractSymptoms (md.symptoms.map Prod.fst) userInput = []
    · rw [if_neg (fun hcon => hcon h5)]
      by_cases h6 : matchesAny userInput diagnosisKeywords = true
      · rw [if_pos h6]
        by_cases h7 : 3 ≤ st.confirmedSymptoms.length
        · rw [if_pos h7]
          exact ⟨fun _ => h7, fun h => by simp at h⟩
        · rw [if_neg h7]
          exact ⟨hdiag, hgreet⟩
      · rw [if_neg h6]
        exact ⟨hdiag, hgreet⟩
    · rw [if_pos h5]
      by_cases h8 : 3 ≤ (setUpdate st.confirmedSymptoms
          (extractSymptoms (md.symptoms.map Prod.fst) userInput)).length
      · rw [if_pos h8]
        exact ⟨fun _ => h8, fun h => by simp at h⟩
      · rw [if_neg h8]
        exact ⟨fun h => by simp [h4] at h, fun h => by simp [h4] at h⟩
  rw [if_neg h4]
  by_cases h9 : st.stage = Stage.diagnosis
  · rw [if_pos h9]
    by_cases h10 : extractSymptoms (md.symptoms.map Prod.fst) userInput = []
    · rw [if_neg (fun hcon => hcon h10)]
      by_cases h11 : matchesAny userInput moreInfoKeywords = true
      · rw [if_pos h11]; exact ⟨hdiag, hgreet⟩
      · rw [if_neg h11]; exact ⟨hdiag, hgreet⟩
    · rw [if_pos h10]
      exact ⟨fun _ => Nat.le_trans (hdiag h9) (setUpdate_length_le _ _),
             fun h => by simp [h9] at h⟩
  rw [if_neg h9]
  exact ⟨hdiag, hgreet⟩

theorem reachable_inv (md : MedicalData) (st : ConvState)
    (h : Reachable md st) : StateInv st := by
  induction h with
  | init => exact stateInv_init
  | step st input rng ext extT _ ih => exact stateInv_step md st input rng ext extT ih

theorem moreInfo_shape (md : MedicalData) (st : ConvState) (userInput : String)
    (extT : Except Unit TreatmentData) :
    (∃ info, moreInfoResponse md st userInput extT = Response.conditionDetail info) ∨
    moreInfoResponse md st userInput extT = Response.referToProfessional := by
  unfold moreInfoResponse
  split
  · exact Or.inl ⟨_, rfl⟩
  · split
    · exact Or.inl ⟨_, rfl⟩
    · exact Or.inr rfl

theorem step_facts (md : MedicalData) (st : ConvState) (userInput : String) (rng : Nat)
    (ext : Except Unit ExternalData) (extT : Except Unit TreatmentData)
    (hinv : StateInv st) :
    (isDiagnosisBearing (processInput md st userInput rng ext extT).2 = true →
      3 ≤ (processInput md st userInput rng ext extT).1.confirmedSymptoms.length) ∧
    (∀ syms rem fu,
      (processInput md st userInput rng ext extT).2 = Response.symptomsAck syms rem fu →
      (processInput md st userInput rng ext extT).1.confirmedSymptoms.length < 3 ∧
      rem = 3 - (processInput md st userInput rng ext extT).1.confirmedSymptoms.length) ∧
    (∀ rem,
      (processInput md st userInput rng ext extT).2 = Response.needMoreSymptoms rem →
      st.confirmedSymptoms.length < 3 ∧ rem = 3 - st.confirmedSymptoms.length) := by
  obtain ⟨hdiag, hgreet⟩ := hinv
  simp only [processInput]
  by_cases h1 : st.stage = Stage.greeting
  · rw [if_pos h1]
    exact ⟨by simp [isDiagnosisBearing], fun syms rem fu h => by simp at h,
      fun rem h => by simp at h⟩
  rw [if_neg h1]
  by_cases h2 : matchesAny userInput goodbyeKeywords = true
  · rw [if_pos h2]
    exact ⟨by simp [isDiagnosisBearing], fun syms rem fu h => by simp at h,
      fun rem h => by simp at h⟩
  rw [if_neg h2]
  by_cases h3 : matchesAny userInput restartKeywords = true
  · rw [if_pos h3]
    exact ⟨by simp [isDiagnosisBearing], fun syms rem fu h => by simp at h,
      fun rem h => by simp at h⟩
  rw [if_neg h3]
  by_cases h4 : st.stage = Stage.collectingSymptoms
  · rw [if_pos h4]
    by_cases h5 : extractSymptoms (md.symptoms.map Prod.fst) userInput = []
    · rw [if_neg (fun hcon => hcon h5)]
      by_cases h6 : matchesAny userInput diagnosisKeywords = true
      · rw [if_pos h6]
        by_cases h7 : 3 ≤ st.confirmedSymptoms.length
        · rw [if_pos h7]
          exact ⟨fun _ => h7, fun syms rem fu h => by simp at h, fun rem h => by simp at h⟩
        · rw [if_neg h7]
          refine ⟨by simp [isDiagnosisBearing], fun syms rem fu h => by simp at h,
            fun rem h => ?_⟩
          simp only [Response.needMoreSymptoms.injEq] at h
          omega
      · rw [if_neg h6]
        exact ⟨by simp [isDiagnosisBearing], fun syms rem fu h => by simp at h,
          fun rem h => by simp at h⟩
    · rw [if_pos h5]
      by_cases h8 : 3 ≤ (setUpdate st.confirmedSymptoms
          (extractSymptoms (md.symptoms.map Prod.fst) userInput)).length
      · rw [if_pos h8]
        exact ⟨fun _ => h8, fun syms rem fu h => by simp at h, fun rem h => by simp at h⟩
      · rw [if_neg h8]
        refine ⟨by simp [isDiagnosisBearing], fun syms rem fu h => ?_, fun rem h => by simp at h⟩
        simp only [Response.symptomsAck.injEq] at h
        obtain ⟨-, hrem, -⟩ := h
        dsimp only
        omega
  rw [if_neg h4]
  by_cases h9 : st.stage = Stage.diagnosis
  · rw [if_pos h9]
    by_cases h10 : extractSymptoms (md.symptoms.map Prod.fst) userInput = []
    · rw [if_neg (fun hcon => hcon h10)]
      by_cases h11 : matchesAny userInput moreInfoKeywords = true
      · rw [if_pos h11]
        refine ⟨fun hd => ?_, fun syms rem fu h => ?_, fun rem h => ?_⟩ <;>
          rcases moreInfo_shape md st userInput extT with ⟨info, hm⟩ | hm <;>
            first
              | (rw [show (st, moreInfoResponse md st userInput extT).2 =
                      moreInfoResponse md st userInput extT from rfl, hm] at hd
                 simp [isDiagnosisBearing] at hd)
              | (rw [show (st, moreInfoResponse md st userInput extT).2 =
                      moreInfoResponse md st userInput extT from rfl, hm] at h
                 simp at h)
      · rw [if_neg h11]
        exact ⟨by simp [isDiagnosisBearing], fun syms rem fu h => by simp at h,
          fun rem h => by simp at h⟩
    · rw [if_pos h10]
      exact ⟨fun _ => Nat.le_trans (hdiag h9) (setUpdate_length_le _ _),
        fun syms rem fu h => by simp at h, fun rem h => by simp at h⟩
  rw [if_neg h9]
  exact ⟨by simp [isDiagnosisBearing], fun syms rem fu h => by simp at h,
    fun rem h => by simp at h⟩

/-! ### Extraction lemmas -/

theorem extractSymptoms_sublist (keys : List String) (userInput : String) :
    (extractSymptoms keys userInput).Sublist keys := by
  induction keys with
  | nil => simp [extractSymptoms]
  | cons k rest ih =>
    simp only [extractSymptoms]
    split
    · exact List.Sublist.cons₂ k ih
    · split
      · split
        · exact List.Sublist.cons₂ k ih
        · exact List.Sublist.cons k ih
      · exact List.Sublist.cons k ih

theorem extract_exact_mem (keys : List String) (userInput symptom : String)
    (hmem : symptom ∈ keys)
    (hsub : containsSub (lowerStr userInput) symptom = true) :
    symptom ∈ extractSymptoms keys userInput := by
  induction keys with
  | nil => cases hmem
  | cons k rest ih =>
    simp only [extractSymptoms]
    rcases List.mem_cons.mp hmem with heq | htail
    · subst heq
      rw [if_pos hsub]
      exact List.mem_cons_self _ _
    · have hrec := ih htail
      split
      · exact List.mem_cons_of_mem _ hrec
      · split
        · split
          · exact List.mem_cons_of_mem _ hrec
          · exact hrec
        · exact hrec

theorem extract_partial_mem (keys : List String) (userInput symptom : String)
    (hmem : symptom ∈ keys)
    (hmulti : 1 < (pyWords symptom).length)
    (hnoexact : containsSub (lowerStr userInput) symptom = false)
    (hhalf : (pyWords symptom).length ≤
      2 * ((pyWords symptom).filter
            (fun part => containsSub (lowerStr userInput) part)).length) :
    symptom ∈ extractSymptoms keys userInput := by
  induction keys with
  | nil => cases hmem
  | cons k rest ih =>
    simp only [extractSymptoms]
    rcases List.mem_cons.mp hmem with heq | htail
    · subst heq
      rw [if_neg (by simp [hnoexact]), if_pos hmulti, if_pos hhalf]
      exact List.mem_cons_self _ _
    · have hrec := ih htail
      split
      · exact List.mem_cons_of_mem _ hrec
      · split
        · split
          · exact List.mem_cons_of_mem _ hrec
          · exact hrec
        · exact hrec

/-! ### Sorting lemmas: the insertion sort is descending and stable -/

theorem mem_insertDesc {x y : String × Nat} {l : List (String × Nat)} :
    y ∈ insertDesc x l ↔ y = x ∨ y ∈ l := by
  induction l with
  | nil => simp [insertDesc]
  | cons z zs ih =>
    by_cases hc : x.2 ≤ z.2
    · rw [show insertDesc x (z :: zs) = z :: insertDesc x zs from by
        simp [insertDesc, hc]]
      simp [ih]
      tauto
    · rw [show insertDesc x (z :: zs) = x :: z :: zs from by
        simp [insertDesc, hc]]
      simp

theorem insertDesc_sorted {x : String × Nat} {l : List (String × Nat)}
    (hl : l.Pairwise (fun a b => b.2 ≤ a.2)) :
    (insertDesc x l).Pairwise (fun a b => b.2 ≤ a.2) := by
  induction l with
  | nil => simp [insertDesc]
  | cons y ys ih =>
    obtain ⟨hy, hys⟩ := List.pairwise_cons.mp hl
    by_cases hc : x.2 ≤ y.2
    · rw [show insertDesc x (y :: ys) = y :: insertDesc x ys from by
        simp [insertDesc, hc]]
      refine List.pairwise_cons.mpr ⟨?_, ih hys⟩
      intro z hz
      rcases mem_insertDesc.mp hz with rfl | hz'
      · exact hc
      · exact hy z hz'
    · rw [show insertDesc x (y :: ys) = x :: y :: ys from by
        simp [insertDesc, hc]]
      refine List.pairwise_cons.mpr ⟨?_, hl⟩
      intro z hz
      rcases List.mem_cons.mp hz with rfl | hz'
      · omega
      · have := hy z hz'
        omega

theorem insertDesc_filter (x : String × Nat) (l : List (String × Nat)) (v : Nat)
    (hl : l.Pairwise (fun a b => b.2 ≤ a.2)) :
    (insertDesc x l).filter (fun p => p.2 = v) =
      l.filter (fun p => p.2 = v) ++ if x.2 = v then [x] else [] := by
  induction l with
  | nil =>
    by_cases hx : x.2 = v <;> simp [insertDesc, List.filter_cons, hx]
  | cons y ys ih =>
    obtain ⟨hy, hys⟩ := List.pairwise_cons.mp hl
    by_cases hc : x.2 ≤ y.2
    · rw [show insertDesc x (y :: ys) = y :: insertDesc x ys from by
        simp [insertDesc, hc]]
      rw [List.filter_cons, List.filter_cons, ih hys]
      by_cases hyv : y.2 = v <;> simp [hyv]
    · rw [show insertDesc x (y :: ys) = x :: y :: ys from by
        simp [insertDesc, hc]]
      by_cases hx : x.2 = v
      · have hnil : (y :: ys).filter (fun p => p.2 = v) = [] := by
          rw [List.filter_eq_nil_iff]
          intro z hz
          have hzy : z.2 ≤ y.2 := by
            rcases List.mem_cons.mp hz with rfl | hz'
            · exact Nat.le_refl _
            · exact hy z hz'
          simp only [decide_eq_true_eq]
          omega
        rw [List.filter_cons, hnil]
        simp [hx]
      · rw [List.filter_cons]
        simp [hx]

theorem sortFold_sorted (l acc : List (String × Nat))
    (hacc : acc.Pairwise (fun a b => b.2 ≤ a.2)) :
    (l.foldl (fun acc x => insertDesc x acc) acc).Pairwise (fun a b => b.2 ≤ a.2) := by
  induction l generalizing acc with
  | nil => exact hacc
  | cons x xs ih => exact ih _ (insertDesc_sorted hacc)

theorem sortFold_filter (l acc : List (String × Nat)) (v : Nat)
    (hacc : acc.Pairwise (fun a b => b.2 ≤ a.2)) :
    (l.foldl (fun acc x => insertDesc x acc) acc).filter (fun p => p.2 = v) =
      acc.filter (fun p => p.2 = v) ++ l.filter (fun p => p.2 = v) := by
  induction l generalizing acc with
  | nil => simp
  | cons x xs ih =>
    rw [List.foldl_cons, ih _ (insertDesc_sorted hacc), insertDesc_filter x acc v hacc,
        List.filter_cons]
    by_cases hx : x.2 = v <;> simp [hx]

theorem sortDescStable_sorted (l : List (String × Nat)) :
    (sortDescStable l).Pairwise (fun a b => b.2 ≤ a.2) :=
  sortFold_sorted l [] List.Pairwise.nil

theorem sortDescStable_filter (l : List (String × Nat)) (v : Nat) :
    (sortDescStable l).filter (fun p => p.2 = v) = l.filter (fun p => p.2 = v) := by
  have h := sortFold_filter l [] v List.Pairwise.nil
  simpa [sortDescStable] using h

theorem mem_of_mem_sortDescStable {e : String × Nat} {l : List (String × Nat)}
    (h : e ∈ sortDescStable l) : e ∈ l := by
  have hf : e ∈ (sortDescStable l).filter (fun p => p.2 = e.2) :=
    List.mem_filter.mpr ⟨h, by simp⟩
  rw [sortDescStable_filter] at hf
  exact (List.mem_filter.mp hf).1

/-! ### Tally lemmas: counter values and key uniqueness -/

theorem valAt_incrCount_self (d : List (String × Nat)) (c : String) :
    valAt (incrCount d c) c = valAt d c + 1 := by
  induction d with
  | nil => simp [incrCount, valAt, lookupAssoc]
  | cons kv rest ih =>
    obtain ⟨k, v⟩ := kv
    by_cases hk : k = c
    · subst hk
      simp [incrCount, valAt, lookupAssoc]
    · simp only [incrCount, if_neg hk]
      simp only [valAt, lookupAssoc, if_neg hk] at ih ⊢
      exact ih

theorem valAt_incrCount_other (d : List (String × Nat)) (c c' : String) (hne : c' ≠ c) :
    valAt (incrCount d c) c' = valAt d c' := by
  have hcc : ¬(c = c') := fun h => hne h.symm
  induction d with
  | nil => simp [incrCount, valAt, lookupAssoc, hcc]
  | cons kv rest ih =>
    obtain ⟨k, v⟩ := kv
    by_cases hk : k = c
    · subst hk
      have : k ≠ c' := fun h => hne h.symm
      simp [incrCount, valAt, lookupAssoc, this]
    · simp only [incrCount, if_neg hk]
      by_cases hk' : k = c'
      · simp [valAt, lookupAssoc, hk']
      · simp only [valAt, lookupAssoc, if_neg hk'] at ih ⊢
        exact ih

theorem valAt_foldl_incrCount (conds : List String) (d : List (String × Nat)) (c : String) :
    valAt (conds.foldl incrCount d) c = valAt d c + conds.count c := by
  induction conds generalizing d with
  | nil => simp
  | cons x xs ih =>
    rw [List.foldl_cons, ih]
    by_cases hx : x = c
    · subst hx
      rw [valAt_incrCount_self]
      simp [List.count_cons]
      omega
    · have hcx : ¬(c = x) := fun h => hx h.symm
      rw [valAt_incrCount_other _ _ _ (fun h => hx h.symm)]
      simp [List.count_cons, hx, hcx]

theorem valAt_tallyFold (md : MedicalData) (confirmed : List String)
    (acc : List (String × Nat)) (c : String) :
    valAt (confirmed.foldl (tallyStep md) acc) c = valAt acc c + countOccs md confirmed c := by
  induction confirmed generalizing acc with
  | nil => simp [countOccs]
  | cons s ss ih =>
    rw [List.foldl_cons, ih]
    cases hs : lookupAssoc md.symptoms s with
    | none => simp [tallyStep, hs, countOccs]
    | some conds =>
      simp only [tallyStep, hs]
      rw [valAt_foldl_incrCount]
      simp [countOccs, hs]
      omega

theorem valAt_tally (md : MedicalData) (confirmed : List String) (c : String) :
    valAt (tallyConditions md confirmed) c = countOccs md confirmed c := by
  have h := valAt_tallyFold md confirmed [] c
  simpa [tallyConditions, valAt, lookupAssoc] using h

theorem keysOf_incrCount (d : List (String × Nat)) (c : String) :
    keysOf (incrCount d c) = if c ∈ keysOf d then keysOf d else keysOf d ++ [c] := by
  induction d with
  | nil => simp [incrCount, keysOf]
  | cons kv rest ih =>
    obtain ⟨k, v⟩ := kv
    by_cases hk : k = c
    · subst hk
      simp [incrCount, keysOf]
    · have hkc : ¬(c = k) := fun h => hk h.symm
      by_cases hm : c ∈ keysOf rest
      · simp [incrCount, if_neg hk, keysOf] at ih ⊢
        simp [keysOf] at hm
        simp [hm, hkc] at ih ⊢
        exact ih
      · simp [incrCount, if_neg hk, keysOf] at ih ⊢
        simp [keysOf] at hm
        simp [hm, hkc] at ih ⊢
        exact ih

theorem keysOf_incrCount_nodup (d : List (String × Nat)) (c : String)
    (h : (keysOf d).Nodup) : (keysOf (incrCount d c)).Nodup := by
  rw [keysOf_incrCount]
  by_cases hm : c ∈ keysOf d
  · rwa [if_pos hm]
  · rw [if_neg hm]
    simp [List.nodup_append, h, hm]

theorem keysOf_foldl_incrCount_nodup (conds : List String) (d : List (String × Nat))
    (h : (keysOf d).Nodup) : (keysOf (conds.foldl incrCount d)).Nodup := by
  induction conds generalizing d with
  | nil => exact h
  | cons x xs ih => exact ih _ (keysOf_incrCount_nodup d x h)

theorem keysOf_tally_nodup (md : MedicalData) (confirmed : List String) :
    (keysOf (tallyConditions md confirmed)).Nodup := by
  suffices hgen : ∀ acc : List (String × Nat), (keysOf acc).Nodup →
      (keysOf (confirmed.foldl (tallyStep md) acc)).Nodup by
    exact hgen [] (by simp [keysOf])
  induction confirmed with
  | nil => intro acc hacc; exact hacc
  | cons s ss ih =>
    intro acc hacc
    rw [List.foldl_cons]
    refine ih _ ?_
    cases hs : lookupAssoc md.symptoms s with
    | none => simpa [tallyStep, hs] using hacc
    | some conds =>
      simp only [tallyStep, hs]
      exact keysOf_foldl_incrCount_nodup conds acc hacc

theorem lookupAssoc_eq_of_mem {d : List (String × Nat)} {c : String} {n : Nat}
    (hnd : (keysOf d).Nodup) (hmem : (c, n) ∈ d) : lookupAssoc d c = some n := by
  induction d with
  | nil => cases hmem
  | cons kv rest ih =>
    obtain ⟨k, v⟩ := kv
    rw [keysOf, List.map_cons] at hnd
    obtain ⟨hk, hrest⟩ := List.nodup_cons.mp hnd
    rcases List.mem_cons.mp hmem with heq | htail
    · cases heq
      simp [lookupAssoc]
    · by_cases hkc : k = c
      · subst hkc
        exact absurd (List.mem_map_of_mem Prod.fst htail) hk
      · simp only [lookupAssoc, if_neg hkc]
        exact ih hrest htail

theorem mem_tally_count (md : MedicalData) (confirmed : List String) (c : String) (n : Nat)
    (h : (c, n) ∈ tallyConditions md confirmed) : n = countOccs md confirmed c := by
  have hl := lookupAssoc_eq_of_mem (keysOf_tally_nodup md confirmed) h
  have hv := valAt_tally md confirmed c
  rw [valAt, hl] at hv
  simpa using hv

theorem lookupAssoc_mem {α : Type} {l : List (String × α)} {k : String} {v : α}
    (h : lookupAssoc l k = some v) : (k, v) ∈ l := by
  induction l with
  | nil => simp [lookupAssoc] at h
  | cons kv rest ih =>
    obtain ⟨k', v'⟩ := kv
    by_cases hk : k' = k
    · subst hk
      rw [show lookupAssoc ((k', v') :: rest) k' = some v' from by simp [lookupAssoc]] at h
      injection h with h
      subst h
      exact List.mem_cons_self _ _
    · simp only [lookupAssoc, if_neg hk] at h
      exact List.mem_cons_of_mem _ (ih h)

theorem countOccs_eq_filter_length (md : MedicalData) (confirmed : List String) (c : String)
    (hnod : ∀ s l, (s, l) ∈ md.symptoms → l.Nodup) :
    countOccs md confirmed c =
      (confirmed.filter (fun s => c ∈ (lookupAssoc md.symptoms s).getD [])).length := by
  induction confirmed with
  | nil => simp [countOccs]
  | cons s ss ih =>
    have hstep : ((lookupAssoc md.symptoms s).getD []).count c =
        if c ∈ (lookupAssoc md.symptoms s).getD [] then 1 else 0 := by
      cases hs : lookupAssoc md.symptoms s with
      | none =>
        simp
      | some l =>
        simp only [Option.getD_some]
        by_cases hc : c ∈ l
        · rw [if_pos hc, List.count_eq_one_of_mem (hnod s l (lookupAssoc_mem hs)) hc]
        · rw [if_neg hc, List.count_eq_zero_of_not_mem hc]
    simp only [countOccs, List.map_cons, List.sum_cons] at ih ⊢
    rw [hstep, List.filter_cons, ih]
    by_cases hc : c ∈ (lookupAssoc md.symptoms s).getD [] <;> simp [hc] <;> omega

theorem confidenceValChecked_eq (m n : Nat) :
    confidenceValChecked m n = some (confidenceVal m n) := by
  unfold confidenceValChecked confidenceVal pyDiv
  by_cases h : 0 < n
  · rw [if_pos h, if_pos h, if_neg (by omega)]
  · rw [if_neg h, if_neg h]

theorem mapOption_some {α β : Type} (f : α → β) (l : List α) :
    mapOption (fun a => some (f a)) l = some (l.map f) := by
  induction l with
  | nil => rfl
  | cons a l ih => simp [mapOption, ih]

theorem labeledConditionsChecked_eq (md : MedicalData) (confirmed : List String) :
    labeledConditionsChecked md confirmed = some (labeledConditions md confirmed) := by
  unfold labeledConditionsChecked labeledConditions
  have hfun : (fun e : String × Nat => (confidenceValChecked e.2 confirmed.length).map
      (fun conf => (e.1, e.2, confidenceLevel conf))) =
      fun e : String × Nat =>
        some (e.1, e.2, confidenceLevel (confidenceVal e.2 confirmed.length)) := by
    funext e
    rw [confidenceValChecked_eq]
    rfl
  rw [hfun]
  exact mapOption_some _ _

/-! ## Claim theorems -/

/-- C1, counterexample: the confidence label boundaries of the claim (70
and 40) do not hold on the code.  With the fallback knowledge base and the
ten confirmed symptoms of `cxSeventy`, MALARIA appears in the ranked output
with match count 7, hence a percentage of exactly 70, yet is labeled
"Moderate Sickness" instead of the claimed "High Sickness"; likewise with
`cxForty` TUBERCULOSIS scores exactly 40 percent and is labeled "Possible
Sickness" instead of the claimed "Moderate Sickness". -/
theorem C1_counterexample :
    labeledConditions basicMedicalData cxSeventy =
      [("MALARIA", 7, "Moderate Sickness"), ("TYPHOID FEVER", 6, "Moderate Sickness")] ∧
    confidenceVal 7 cxSeventy.length = 70 ∧
    labeledConditions basicMedicalData cxForty =
      [("TUBERCULOSIS", 2, "Possible Sickness"), ("HIV/AIDS", 2, "Possible Sickness")] ∧
    confidenceVal 2 cxForty.length = 40 ∧
    "Moderate Sickness" ≠ "High Sickness" ∧
    "Possible Sickness" ≠ "Moderate Sickness" := by
  decide

/-- C1 (amended): for every condition in the ranked diagnosis output, the
label is derived from `percentage = match_count * 100 / total_confirmed`
(float truncation = floor division) with the boundaries of the code: ≥ 75 is
"High Sickness", 50 ≤ p < 75 is "Moderate Sickness", and p < 50 is
"Possible Sickness"; exactly 70 therefore maps to "Moderate Sickness" and
exactly 40 to "Possible Sickness". -/
theorem C1_thresholds (md : MedicalData) (confirmed : List String)
    (c : String) (m : Nat) (lvl : String)
    (hmem : (c, m, lvl) ∈ labeledConditions md confirmed) :
    (75 ≤ confidenceVal m confirmed.length → lvl = "High Sickness") ∧
    (50 ≤ confidenceVal m confirmed.length ∧ confidenceVal m confirmed.length < 75 →
      lvl = "Moderate Sickness") ∧
    (confidenceVal m confirmed.length < 50 → lvl = "Possible Sickness") := by
  obtain ⟨e, hel, heq⟩ := List.mem_map.mp hmem
  cases heq
  refine ⟨fun h75 => ?_, fun h50 => ?_, fun h50' => ?_⟩ <;>
    simp only [confidenceLevel] <;> split_ifs <;> first | rfl | omega

/-- C1 witness: the amended boundary theorem applied to the MALARIA entry
of the `cxSeventy` run, whose percentage is exactly 70. -/
theorem C1_thresholds_witness :
    (75 ≤ confidenceVal 7 cxSeventy.length → "Moderate Sickness" = "High Sickness") ∧
    (50 ≤ confidenceVal 7 cxSeventy.length ∧ confidenceVal 7 cxSeventy.length < 75 →
      "Moderate Sickness" = "Moderate Sickness") ∧
    (confidenceVal 7 cxSeventy.length < 50 → "Moderate Sickness" = "Possible Sickness") :=
  C1_thresholds basicMedicalData cxSeventy "MALARIA" 7 "Moderate Sickness" (by decide)

/-- C2, counterexample: ties are not broken by the insertion order of the
conditions dictionary of the knowledge base.  For the single confirmed symptom
"jaundice" all three matched conditions have count 1, and the scorer
returns them in the list order of the symptom (HEPATITIS B, YELLOW FEVER,
MALARIA) although MALARIA precedes HEPATITIS B in the `conditions`
dictionary. -/
theorem C2_counterexample :
    sortedConditions basicMedicalData ["jaundice"] =
      [("HEPATITIS B", 1), ("YELLOW FEVER", 1), ("MALARIA", 1)] ∧
    (basicMedicalData.conditions.map Prod.fst).indexOf "MALARIA" <
      (basicMedicalData.conditions.map Prod.fst).indexOf "HEPATITIS B" := by
  decide

/-- C2 (amended): the scorer output is sorted descending by match count
with a stable sort, so ties keep the order in which conditions were first
encountered while tallying the confirmed symptoms (taking each
knowledge-base condition list in order) — not the `conditions` dictionary order; each
reported match count equals the total number of occurrences of the
condition across the condition lists of the confirmed symptoms, which is the
number of matching confirmed symptoms whenever no list mentions a condition
twice; and the spec's worked example (fever→[A,B], cough→[A],
headache→[A,C]) ranks A first with count 3, then B and C with count 1. -/
theorem C2_ranking (md : MedicalData) (confirmed : List String) :
    (sortedConditions md confirmed).Pairwise (fun a b => b.2 ≤ a.2) ∧
    (∀ v, (sortedConditions md confirmed).filter (fun p => p.2 = v) =
      (tallyConditions md confirmed).filter (fun p => p.2 = v)) ∧
    (∀ c n, (c, n) ∈ sortedConditions md confirmed → n = countOccs md confirmed c) ∧
    ((∀ s l, (s, l) ∈ md.symptoms → l.Nodup) →
      ∀ c n, (c, n) ∈ sortedConditions md confirmed →
        n = (confirmed.filter
              (fun s => c ∈ (lookupAssoc md.symptoms s).getD [])).length) ∧
    sortedConditions exampleKB ["fever", "cough", "headache"] =
      [("A", 3), ("B", 1), ("C", 1)] := by
  refine ⟨sortDescStable_sorted _, fun v => sortDescStable_filter _ v, ?_, ?_, by decide⟩
  · intro c n hmem
    exact mem_tally_count md confirmed c n (mem_of_mem_sortDescStable hmem)
  · intro hnod c n hmem
    rw [mem_tally_count md confirmed c n (mem_of_mem_sortDescStable hmem)]
    exact countOccs_eq_filter_length md confirmed c hnod

/-- C2 witness: the amended ranking theorem applied to the "jaundice" run:
the reported count 1 of MALARIA equals both its occurrence total and the number
of confirmed symptoms listing it. -/
theorem C2_ranking_witness :
    1 = countOccs basicMedicalData ["jaundice"] "MALARIA" ∧
    1 = (List.filter
          (fun s => "MALARIA" ∈ (lookupAssoc basicMedicalData.symptoms s).getD [])
          ["jaundice"]).length :=
  ⟨(C2_ranking basicMedicalData ["jaundice"]).2.2.1 "MALARIA" 1 (by decide),
   (C2_ranking basicMedicalData ["jaundice"]).2.2.2.1
     (by intro s l h; fin_cases h <;> decide) "MALARIA" 1 (by decide)⟩

/-- C3: in every reachable session state, a dialogue turn returns a
diagnosis-bearing response only when the confirmed-symptom set (after the
update of the turn) has reached size 3; when symptoms were recognized below the
threshold the acknowledgment carries `3 - len(confirmed_symptoms)` as the
number of further symptoms needed, and likewise for an explicit diagnosis
request below the threshold. -/
theorem C3_threshold_gate (md : MedicalData) (st : ConvState) (hreach : Reachable md st)
    (userInput : String) (rng : Nat) (ext : Except Unit ExternalData)
    (extT : Except Unit TreatmentData) :
    (isDiagnosisBearing (processInput md st userInput rng ext extT).2 = true →
      3 ≤ (processInput md st userInput rng ext extT).1.confirmedSymptoms.length) ∧
    (∀ syms rem fu,
      (processInput md st userInput rng ext extT).2 = Response.symptomsAck syms rem fu →
      (processInput md st userInput rng ext extT).1.confirmedSymptoms.length < 3 ∧
      rem = 3 - (processInput md st userInput rng ext extT).1.confirmedSymptoms.length) ∧
    (∀ rem,
      (processInput md st userInput rng ext extT).2 = Response.needMoreSymptoms rem →
      st.confirmedSymptoms.length < 3 ∧ rem = 3 - st.confirmedSymptoms.length) :=
  step_facts md st userInput rng ext extT (reachable_inv md st hreach)

/-- C3 witness: after a greeting turn, reporting three new symptoms yields
a diagnosis-bearing response, and the threshold theorem confirms that the
updated confirmed set indeed has at least 3 elements. -/
theorem C3_threshold_gate_witness :
    3 ≤ (processInput basicMedicalData c3State1 "I have a fever and a headache and nausea" 0
      (Except.error ()) (Except.error ())).1.confirmedSymptoms.length :=
  (C3_threshold_gate basicMedicalData c3State1
      (Reachable.step initialState "hi" 0 (Except.error ()) (Except.error ()) Reachable.init)
      "I have a fever and a headache and nausea" 0 (Except.error ()) (Except.error ())).1
    (by decide)

/-- C4, counterexample: sending "restart" in the GREETING stage does not
leave the state in GREETING — the greeting branch of `process_input` runs
first and moves the stage to COLLECTING_SYMPTOMS. -/
theorem C4_counterexample :
    (processInput basicMedicalData initialState "restart" 0 (Except.error ())
      (Except.error ())).1.stage = Stage.collectingSymptoms ∧
    Stage.collectingSymptoms ≠ Stage.greeting := by
  decide

/-- C4 (amended): for any text matching the restart pattern (and not the
earlier-checked goodbye pattern), a turn from the COLLECTING_SYMPTOMS or
DIAGNOSIS stage resets the state to the initial one (stage GREETING, both
symptom sets empty — the state holds no cached diagnoses) and returns a
restart greeting; from the GREETING stage the greeting branch runs first,
returning a greeting and moving the stage to COLLECTING_SYMPTOMS with the
symptom sets untouched. -/
theorem C4_restart (md : MedicalData) (st : ConvState) (userInput : String) (rng : Nat)
    (ext : Except Unit ExternalData) (extT : Except Unit TreatmentData)
    (hrestart : matchesAny userInput restartKeywords = true)
    (hnobye : matchesAny userInput goodbyeKeywords = false) :
    (st.stage = Stage.collectingSymptoms ∨ st.stage = Stage.diagnosis →
      processInput md st userInput rng ext extT =
        (initialState, Response.restartMsg ("Let\x27s start over. " ++ pick greetings rng))) ∧
    (st.stage = Stage.greeting →
      (processInput md st userInput rng ext extT).1 =
        { st with stage := Stage.collectingSymptoms } ∧
      (processInput md st userInput rng ext extT).2 =
        Response.greetingMsg (pick greetings rng)) ∧
    initialState.stage = Stage.greeting ∧
    initialState.confirmedSymptoms = [] ∧
    initialState.collectedSymptoms = [] := by
  refine ⟨?_, ?_, rfl, rfl, rfl⟩
  · intro h
    have hng : ¬st.stage = Stage.greeting := by
      rcases h with h | h <;> simp [h]
    rw [show processInput md st userInput rng ext extT =
        (initialState,
          Response.restartMsg ("Let\x27s start over. " ++ pick greetings rng)) from by
      simp only [processInput, if_neg hng]
      rw [if_neg (by simp [hnobye] : ¬matchesAny userInput goodbyeKeywords = true),
          if_pos hrestart]]
  · intro h
    constructor <;> · simp only [processInput, if_pos h]

/-- C4 witness: the amended restart theorem applied to a collecting-stage
session holding one confirmed symptom. -/
theorem C4_restart_witness :
    processInput basicMedicalData
        { collectedSymptoms := ["fever"], confirmedSymptoms := ["fever"],
          stage := Stage.collectingSymptoms } "restart" 0
        (Except.error ()) (Except.error ()) =
      (initialState, Response.restartMsg ("Let\x27s start over. " ++ pick greetings 0)) :=
  (C4_restart basicMedicalData
      { collectedSymptoms := ["fever"], confirmedSymptoms := ["fever"],
        stage := Stage.collectingSymptoms } "restart" 0 (Except.error ()) (Except.error ())
      (by decide) (by decide)).1
    (Or.inl rfl)

/-- C5: for every knowledge base and input text, if the lowercased text
contains a known symptom phrase as a contiguous substring, then
`extract_symptoms` includes that phrase in its result. -/
theorem C5_exact_extraction (keys : List String) (userInput symptom : String)
    (hmem : symptom ∈ keys)
    (hsub : containsSub (lowerStr userInput) symptom = true) :
    symptom ∈ extractSymptoms keys userInput :=
  extract_exact_mem keys userInput symptom hmem hsub

/-- C5 witness: "fever" is extracted from a text containing it (despite
different capitalization). -/
theorem C5_exact_extraction_witness :
    "fever" ∈ extractSymptoms (basicMedicalData.symptoms.map Prod.fst)
      "I caught a Fever yesterday" :=
  C5_exact_extraction (basicMedicalData.symptoms.map Prod.fst)
    "I caught a Fever yesterday" "fever" (by decide) (by decide)

/-- C6: for every multi-word symptom phrase of the knowledge base, if the
phrase is not an exact substring of the lowercased text but at least half
of its words occur as substrings of the lowercased text, then
`extract_symptoms` still includes the phrase (partial-match rule). -/
theorem C6_partial_extraction (keys : List String) (userInput symptom : String)
    (hmem : symptom ∈ keys)
    (hmulti : 1 < (pyWords symptom).length)
    (hnoexact : containsSub (lowerStr userInput) symptom = false)
    (hhalf : (pyWords symptom).length ≤
      2 * ((pyWords symptom).filter
            (fun part => containsSub (lowerStr userInput) part)).length) :
    symptom ∈ extractSymptoms keys userInput :=
  extract_partial_mem keys userInput symptom hmem hmulti hnoexact hhalf

/-- C6 witness: "abdominal pain" is extracted from a text that contains
"pain" (half of the two words of the phrase) but not the full phrase. -/
theorem C6_partial_extraction_witness :
    "abdominal pain" ∈ extractSymptoms (basicMedicalData.symptoms.map Prod.fst)
      "a sharp pain in my stomach" :=
  C6_partial_extraction (basicMedicalData.symptoms.map Prod.fst)
    "a sharp pain in my stomach" "abdominal pain"
    (by decide) (by decide) (by decide) (by decide)

/-- C7: the diagnosis response of `get_diagnosis` (whenever at least one
condition is ranked) and the extended treatment text of
`get_treatment_info` both end with the fixed medical disclaimer appended
verbatim, whatever the gateway outcomes. -/
theorem C7_disclaimer (md : MedicalData) (confirmed : List String)
    (ext : Except Unit ExternalData) (extT : Except Unit TreatmentData)
    (condition : String)
    (hranked : sortedConditions md confirmed ≠ []) :
    strEndsWith (getDiagnosisStr md confirmed ext) medicalDisclaimer ∧
    strEndsWith (getTreatmentInfo md condition extT) medicalDisclaimer := by
  have hne : confirmed ≠ [] := by
    intro h
    subst h
    exact hranked rfl
  constructor
  · unfold getDiagnosisStr
    rw [if_neg hne, if_neg hranked]
    exact ⟨_, rfl⟩
  · unfold getTreatmentInfo
    exact ⟨_, rfl⟩

/-- C7 witness: the disclaimer ending on a concrete three-symptom
diagnosis with a failing gateway. -/
theorem C7_disclaimer_witness :
    strEndsWith (getDiagnosisStr basicMedicalData ["fever", "cough", "headache"]
      (Except.error ())) medicalDisclaimer :=
  (C7_disclaimer basicMedicalData ["fever", "cough", "headache"] (Except.error ())
    (Except.error ()) "MALARIA" (by decide)).1

/-- C8: if the external gateway call raises during diagnosis, the failure
is swallowed: `get_diagnosis` returns exactly the locally computed
assessment with the enrichment section omitted and the core text otherwise
unchanged; the same holds when the gateway recovers internally and hands
back an empty condition list. -/
theorem C8_gateway_failure (md : MedicalData) (confirmed : List String) (e : Unit) :
    getDiagnosisStr md confirmed (Except.error e) = getDiagnosisNoEnrichment md confirmed ∧
    (∀ d, getDiagnosisStr md confirmed (Except.ok ⟨[], d⟩) =
      getDiagnosisNoEnrichment md confirmed) := by
  constructor
  · unfold getDiagnosisStr getDiagnosisNoEnrichment
    by_cases h1 : confirmed = []
    · rw [if_pos h1, if_pos h1]
    rw [if_neg h1, if_neg h1]
    by_cases h2 : sortedConditions md confirmed = []
    · rw [if_pos h2, if_pos h2]
    rw [if_neg h2, if_neg h2]
    show diagnosisHeader ++ renderConditions md (labeledConditions md confirmed) ++ "" ++
        "\n" ++ medicalDisclaimer = _
    rw [String.append_empty]
  · intro d
    unfold getDiagnosisStr getDiagnosisNoEnrichment
    by_cases h1 : confirmed = []
    · rw [if_pos h1, if_pos h1]
    rw [if_neg h1, if_neg h1]
    by_cases h2 : sortedConditions md confirmed = []
    · rw [if_pos h2, if_pos h2]
    rw [if_neg h2, if_neg h2]
    show diagnosisHeader ++ renderConditions md (labeledConditions md confirmed) ++
        enrichmentSection md confirmed (Except.ok ⟨[], d⟩) ++
        "\n" ++ medicalDisclaimer = _
    rw [show enrichmentSection md confirmed (Except.ok ⟨[], d⟩) = "" from by
      simp [enrichmentSection]]
    rw [String.append_empty]

/-- C9: every phrase returned by `extract_symptoms` is a key of the
symptoms mapping of the knowledge base, and (keys being unique, as dictionary
keys are) no phrase occurs more than once in the result even when it
satisfies both the exact and the partial rule. -/
theorem C9_extraction_invariant (keys : List String) (userInput : String)
    (hnd : keys.Nodup) :
    (∀ s ∈ extractSymptoms keys userInput, s ∈ keys) ∧
    (extractSymptoms keys userInput).Nodup :=
  ⟨fun _ hs => (extractSymptoms_sublist keys userInput).subset hs,
   (extractSymptoms_sublist keys userInput).nodup hnd⟩

/-- C9 witness: a text matching "fever" both exactly and through the
partial rule of "high fever" still yields a duplicate-free result. -/
theorem C9_extraction_invariant_witness :
    (extractSymptoms (basicMedicalData.symptoms.map Prod.fst)
      "I have a fever and a cough").Nodup :=
  (C9_extraction_invariant (basicMedicalData.symptoms.map Prod.fst)
    "I have a fever and a cough" (by decide)).2

/-- C10: `get_diagnosis` never divides by zero: with Python division
modelled as a fallible operation, the checked computation always succeeds
and returns the ordinary response, because the empty-symptom case returns
the insufficient-information message before any scoring and the confidence
computation guards its divisor (`if max_score > 0 ... else 0`). -/
theorem C10_no_division_error (md : MedicalData) (confirmed : List String)
    (ext : Except Unit ExternalData) :
    getDiagnosisChecked md confirmed ext = some (getDiagnosisStr md confirmed ext) ∧
    (confirmed = [] → getDiagnosisStr md confirmed ext = insufficientMsg) := by
  constructor
  · unfold getDiagnosisChecked getDiagnosisStr
    by_cases h1 : confirmed = []
    · rw [if_pos h1, if_pos h1]
    rw [if_neg h1, if_neg h1]
    by_cases h2 : sortedConditions md confirmed = []
    · rw [if_pos h2, if_pos h2]
    rw [if_neg h2, if_neg h2, labeledConditionsChecked_eq]
    rfl
  · intro h
    unfold getDiagnosisStr
    rw [if_pos h]

/-- C10 witness: the checked diagnosis at the empty confirmed set returns
the insufficient-information message. -/
theorem C10_no_division_error_witness :
    getDiagnosisStr basicMedicalData [] (Except.error ()) = insufficientMsg :=
  (C10_no_division_error basicMedicalData [] (Except.error ())).2 rfl

end Medichat
